import Mathlib

/-!
Verification of `src/compat.h` from the kartlytics repository.

The header defines five integer constants (`MILLISEC`, `PATH_MAX`,
`EXIT_SUCCESS`, `EXIT_FAILURE`, `EXIT_USAGE`), a two-valued enumeration
`boolean_t` with enumerators `B_FALSE` and `B_TRUE`, an include guard
`COMPAT_H`, and a conditional fallback macro `png_jmpbuf(png_ptr)`
expanding to `((png_ptr)->jmpbuf)` installed only when the image library
did not already define `png_jmpbuf`.
-/

/-- Embeds `#define MILLISEC 1000` (compat.h line 8). -/
def MILLISEC : Nat := 1000

/-- Embeds `#define PATH_MAX 1024` (compat.h line 10). -/
def PATH_MAX : Nat := 1024

/-- Embeds `#define EXIT_SUCCESS 0` (compat.h line 12). -/
def EXIT_SUCCESS : Nat := 0

/-- Embeds `#define EXIT_FAILURE 1` (compat.h line 13). -/
def EXIT_FAILURE : Nat := 1

/-- Embeds `#define EXIT_USAGE 2` (compat.h line 14). -/
def EXIT_USAGE : Nat := 2

/-- Embeds `typedef enum { B_FALSE, B_TRUE } boolean_t;` (compat.h line 16). -/
inductive boolean_t where
  | B_FALSE : boolean_t
  | B_TRUE : boolean_t
deriving DecidableEq, Repr

/-- The underlying integer value of each enumerator, following the C rule
for an enum with no explicit initializers: the first enumerator gets 0 and
each subsequent one gets the previous value plus one, so `B_FALSE = 0` and
`B_TRUE = 1`. -/
def boolean_t.val : boolean_t → Nat
  | .B_FALSE => 0
  | .B_TRUE => 1

/-- C truth-value conversion: an integer is truthy exactly when it is
nonzero. -/
def cTruthy (n : Nat) : Bool := n != 0

/-- Map from `boolean_t` to the native boolean primitive. -/
def boolean_t.toBool : boolean_t → Bool
  | .B_FALSE => false
  | .B_TRUE => true

/-- Map from the native boolean primitive back to `boolean_t`. -/
def boolean_t.ofBool : Bool → boolean_t
  | false => .B_FALSE
  | true => .B_TRUE

/-- The portion of the image library's `png_struct` that the fallback
macro touches: the `jmpbuf` field (of some jump-buffer type `J`). -/
structure png_struct (J : Type) where
  jmpbuf : J

/-- Embeds the fallback macro body `((png_ptr)->jmpbuf)` (compat.h
line 20): field access on the pointed-to structure. -/
def png_jmpbuf_fallback {J : Type} (png_ptr : png_struct J) : J :=
  png_ptr.jmpbuf

/-- Embeds the conditional installation (compat.h lines 19-21):
`#ifndef png_jmpbuf / #define png_jmpbuf(png_ptr) ((png_ptr)->jmpbuf) / #endif`.
`lib` is the accessor the image library itself provides, when any: the
fallback is installed only when the library provides none. -/
def png_jmpbuf_effective {J : Type} (lib : Option (png_struct J → J)) :
    png_struct J → J :=
  match lib with
  | some f => f
  | none => png_jmpbuf_fallback

/-- The macro names compat.h defines unconditionally once the include guard
is passed (compat.h lines 6-16), in source order. -/
def compatUnconditionalDefs : List String :=
  ["COMPAT_H", "MILLISEC", "PATH_MAX", "EXIT_SUCCESS", "EXIT_FAILURE",
   "EXIT_USAGE", "boolean_t"]

/-- Preprocessor-level model of `#include "compat.h"` acting on the set of
currently defined names (compat.h lines 5-23): if `COMPAT_H` is already
defined the guard skips the whole body; otherwise every unconditional
definition is added and `png_jmpbuf` is added only if not already
defined. -/
def includeCompatH (defined : List String) : List String :=
  if "COMPAT_H" ∈ defined then defined
  else
    defined ++ compatUnconditionalDefs ++
      (if "png_jmpbuf" ∈ defined then [] else ["png_jmpbuf"])

/-- The possible values of symbols exported by compat.h: integer constants,
enumerators of `boolean_t`, and the jump buffer yielded by the `png_jmpbuf`
fallback. -/
inductive CompatValue (J : Type) where
  | int : Nat → CompatValue J
  | boolval : boolean_t → CompatValue J
  | jmp : J → CompatValue J
deriving Repr

/-- The exported symbols of compat.h, the `png_jmpbuf` fallback applied to
a concrete argument included. -/
inductive CompatSymbol (J : Type) where
  | MILLISEC : CompatSymbol J
  | PATH_MAX : CompatSymbol J
  | EXIT_SUCCESS : CompatSymbol J
  | EXIT_FAILURE : CompatSymbol J
  | EXIT_USAGE : CompatSymbol J
  | B_FALSE : CompatSymbol J
  | B_TRUE : CompatSymbol J
  | png_jmpbuf (png_ptr : png_struct J) : CompatSymbol J

/-- Evaluation of an exported symbol in a program state of type `σ`: each
symbol is a preprocessor substitution by a constant or a pure field access,
so evaluation returns its value together with the (untouched) state. -/
def evalCompatSymbol {J σ : Type} : CompatSymbol J → σ → CompatValue J × σ
  | .MILLISEC, s => (.int MILLISEC, s)
  | .PATH_MAX, s => (.int PATH_MAX, s)
  | .EXIT_SUCCESS, s => (.int EXIT_SUCCESS, s)
  | .EXIT_FAILURE, s => (.int EXIT_FAILURE, s)
  | .EXIT_USAGE, s => (.int EXIT_USAGE, s)
  | .B_FALSE, s => (.boolval .B_FALSE, s)
  | .B_TRUE, s => (.boolval .B_TRUE, s)
  | .png_jmpbuf p, s => (.jmp (png_jmpbuf_fallback p), s)

/-- C1: the three process exit-status constants have exactly the contract
values: `EXIT_SUCCESS = 0`, `EXIT_FAILURE = 1`, `EXIT_USAGE = 2`. -/
theorem exit_status_contract :
    EXIT_SUCCESS = 0 ∧ EXIT_FAILURE = 1 ∧ EXIT_USAGE = 2 := by
  refine ⟨rfl, rfl, rfl⟩

/-- C2: when the library provides no `png_jmpbuf` accessor, the effective
macro is the fallback, and for every argument `png_ptr` it yields exactly
the field access `(png_ptr)->jmpbuf`. -/
theorem png_jmpbuf_fallback_is_field_access (J : Type)
    (png_ptr : png_struct J) :
    png_jmpbuf_effective none png_ptr = png_ptr.jmpbuf ∧
      png_jmpbuf_effective none png_ptr = png_jmpbuf_fallback png_ptr := by
  exact ⟨rfl, rfl⟩

/-- C3: when the library already defines `png_jmpbuf`, the header leaves
that definition unchanged: the effective accessor is the library's own. -/
theorem png_jmpbuf_library_def_preserved (J : Type)
    (f : png_struct J → J) :
    png_jmpbuf_effective (some f) = f := by
  rfl

/-- C4: `boolean_t` has exactly the two distinct values `B_FALSE` and
`B_TRUE` and is in bijection with the native boolean primitive `Bool`. -/
theorem boolean_t_two_valued_bijective :
    boolean_t.B_FALSE ≠ boolean_t.B_TRUE ∧
      (∀ b : boolean_t, b = .B_FALSE ∨ b = .B_TRUE) ∧
      Function.Bijective boolean_t.toBool ∧
      (∀ b : boolean_t, boolean_t.ofBool b.toBool = b) ∧
      (∀ x : Bool, (boolean_t.ofBool x).toBool = x) := by
  refine ⟨by simp, fun b => by cases b <;> simp, ⟨?_, ?_⟩, ?_, ?_⟩
  · intro a b h
    cases a <;> cases b <;> simp [boolean_t.toBool] at h ⊢
  · intro x
    cases x
    · exact ⟨.B_FALSE, rfl⟩
    · exact ⟨.B_TRUE, rfl⟩
  · intro b; cases b <;> rfl
  · intro x; cases x <;> rfl

/-- C5: the millisecond-scale constant equals 1000. -/
theorem MILLISEC_value : MILLISEC = 1000 := by
  rfl

/-- C6: the maximum-path-length constant equals 1024. -/
theorem PATH_MAX_value : PATH_MAX = 1024 := by
  rfl

/-- C7: every exported symbol is a pure compile-time entity: evaluating it
in any two program states yields equal values, and evaluation leaves the
state unchanged. -/
theorem compat_symbols_pure (J σ : Type) (sym : CompatSymbol J)
    (s t : σ) :
    (evalCompatSymbol sym s).1 = (evalCompatSymbol sym t).1 ∧
      (evalCompatSymbol sym s).2 = s := by
  cases sym <;> exact ⟨rfl, rfl⟩

/-- C8: including compat.h is idempotent: thanks to the `COMPAT_H` include
guard, including it two or more times yields exactly the same set of
definitions as including it once. -/
theorem includeCompatH_idempotent (defined : List String) (n : Nat) :
    includeCompatH^[n + 2] defined = includeCompatH defined := by
  have key : ∀ d : List String, includeCompatH (includeCompatH d) =
      includeCompatH d := by
    intro d
    by_cases h : "COMPAT_H" ∈ d
    · unfold includeCompatH
      rw [if_pos h, if_pos h]
    · have hmem : "COMPAT_H" ∈
          d ++ compatUnconditionalDefs ++
            (if "png_jmpbuf" ∈ d then [] else ["png_jmpbuf"]) := by
        simp [compatUnconditionalDefs]
      unfold includeCompatH
      rw [if_neg h, if_pos hmem]
  induction n with
  | zero => exact key defined
  | succ m ih =>
    show includeCompatH^[m + 2 + 1] defined = includeCompatH defined
    rw [Function.iterate_succ_apply', ih, key]

/-- C9: the underlying integer values follow C enum ordering, `B_FALSE = 0`
and `B_TRUE = 1`, so `B_FALSE` is the unique falsy value of `boolean_t` and
`B_TRUE` is truthy under C truth-value conversion. -/
theorem boolean_t_enum_values :
    boolean_t.val .B_FALSE = 0 ∧ boolean_t.val .B_TRUE = 1 ∧
      (∀ b : boolean_t, cTruthy b.val = false ↔ b = .B_FALSE) ∧
      cTruthy (boolean_t.val .B_TRUE) = true := by
  refine ⟨rfl, rfl, fun b => ?_, rfl⟩
  cases b <;> simp [boolean_t.val, cTruthy]

/-- C10: the three exit-status constants are pairwise distinct and
`EXIT_SUCCESS` is the only one equal to 0, so the three process outcomes
are mutually distinguishable and success is distinguishable from every
failure. -/
theorem exit_status_distinct :
    EXIT_SUCCESS ≠ EXIT_FAILURE ∧ EXIT_SUCCESS ≠ EXIT_USAGE ∧
      EXIT_FAILURE ≠ EXIT_USAGE ∧
      EXIT_SUCCESS = 0 ∧ EXIT_FAILURE ≠ 0 ∧ EXIT_USAGE ≠ 0 := by
  refine ⟨by decide, by decide, by decide, rfl, by decide, by decide⟩

/-- Witness for C2 at the concrete structure with `jmpbuf = 5`. -/
theorem png_jmpbuf_fallback_is_field_access_witness :
    png_jmpbuf_effective none (png_struct.mk 5 : png_struct Nat) =
        (png_struct.mk 5 : png_struct Nat).jmpbuf ∧
      png_jmpbuf_effective none (png_struct.mk 5 : png_struct Nat) =
        png_jmpbuf_fallback (png_struct.mk 5) :=
  png_jmpbuf_fallback_is_field_access Nat (png_struct.mk 5)

/-- Witness for C3 at a concrete library-provided accessor. -/
theorem png_jmpbuf_library_def_preserved_witness :
    png_jmpbuf_effective (some (fun _ : png_struct Nat => 7)) =
      (fun _ : png_struct Nat => 7) :=
  png_jmpbuf_library_def_preserved Nat (fun _ => 7)

/-- Witness for C7 at the `MILLISEC` symbol and two concrete states. -/
theorem compat_symbols_pure_witness :
    (evalCompatSymbol (CompatSymbol.MILLISEC : CompatSymbol Nat)
        (0 : Nat)).1 =
      (evalCompatSymbol (CompatSymbol.MILLISEC : CompatSymbol Nat)
        (1 : Nat)).1 ∧
      (evalCompatSymbol (CompatSymbol.MILLISEC : CompatSymbol Nat)
        (0 : Nat)).2 = 0 :=
  compat_symbols_pure Nat Nat CompatSymbol.MILLISEC 0 1

/-- Witness for C8: two inclusions starting from the empty definition set
equal one inclusion. -/
theorem includeCompatH_idempotent_witness :
    includeCompatH^[2] [] = includeCompatH [] :=
  includeCompatH_idempotent [] 0
